import Mathlib

/-!
Verification of the Resilient Publish Orchestrator of MbotixTech/telegram-to-x.

Shallow embedding of the core publish pipeline:
  * `combineWithHashtags` from the caption builder,
  * the browser-session state and the retry/timeout wrappers of
    `src/twitterPoster.js` (`initializeBrowser`, `closeBrowser`,
    `postTweetWithRetry`, `postTweetWithTimeout`, `postTweet`,
    `uploadImages`, `extractTweetUrlFromPage`, `verifyTweetSuccess`),
  * the job queue of `queueManager.js` (`processQueue`).

JS strings are modelled as `List Char`; awaited sleeps and side effects
(screenshots, logs, file deletion) are modelled as events in an emitted
trace; the nondeterministic outside world (per-attempt success, page
observations) is an explicit oracle argument.
-/

deriving instance DecidableEq for Except

/-! ### Caption builder: combineWithHashtags -/

/-- Constant maxCaptionLength of config.constants in src/config.js. -/
def maxCaptionLength : Nat := 280

/-- The JS expression hashtags.join(' ') of combineWithHashtags. -/
def hashtagString (hashtags : List (List Char)) : List Char :=
  List.intercalate [' '] hashtags

/-- JS String.prototype.substring(0, e): a negative end index is clamped
to 0 (Int.toNat performs exactly that clamp). -/
def jsSubstring0 (s : List Char) (e : Int) : List Char :=
  s.take e.toNat

/-- combineWithHashtags of the caption builder: computes
maxCaptionLength - hashtagString.length - 2 as the caption budget,
truncates the caption to budget - 3 plus a trailing "..." when it is over
budget, and appends two newline characters and the hashtag string. -/
def combineWithHashtags (caption : List Char) (hashtags : List (List Char)) : List Char :=
  let hs := hashtagString hashtags
  let capLimit : Int := (maxCaptionLength : Int) - hs.length - 2
  let finalCaption :=
    if (caption.length : Int) > capLimit then
      jsSubstring0 caption (capLimit - 3) ++ ['.', '.', '.']
    else
      caption
  finalCaption ++ ['\n', '\n'] ++ hs

set_option maxRecDepth 8000 in
/-- C10 counterexample: a hashtag string of 276 characters satisfies the
claim's hypothesis length(h) + 2 ≤ 280, yet with a 4-character caption the
combined result has 281 characters, exceeding maxCaptionLength: the JS
substring clamp turns the negative budget into an unconditional "...". -/
theorem combineWithHashtags_overflow_cex :
    (hashtagString [List.replicate 276 'a']).length + 2 ≤ maxCaptionLength
    ∧ (combineWithHashtags ['a', 'b', 'c', 'd'] [List.replicate 276 'a']).length
        = maxCaptionLength + 1 := by
  have h1 : hashtagString [List.replicate 276 'a'] = List.replicate 276 'a' := by
    simp [hashtagString, List.intercalate]
  have h2 : (combineWithHashtags ['a', 'b', 'c', 'd'] [List.replicate 276 'a'])
      = ['.', '.', '.'] ++ ['\n', '\n'] ++ List.replicate 276 'a' := by
    simp only [combineWithHashtags, h1]
    split_ifs with hif
    · have h3 : (((maxCaptionLength : Int) - (List.replicate 276 'a').length - 2) - 3).toNat
          = 0 := by
        simp [maxCaptionLength]
      rw [jsSubstring0, h3]
      simp
    · exfalso
      apply hif
      simp [maxCaptionLength]
  constructor
  · rw [h1]
    simp [maxCaptionLength]
  · rw [h2]
    simp [maxCaptionLength]

/-- C10 amended: when the hashtag string h additionally satisfies
length(h) + 5 ≤ 280 (so the truncated caption budget is nonnegative), the
combination is at most 280 characters long, the caption is truncated with a
trailing "..." exactly when the untruncated combination would exceed 280,
and the full hashtag string always follows the two-newline separator. -/
theorem combineWithHashtags_truncation (caption : List Char)
    (hashtags : List (List Char))
    (h : (hashtagString hashtags).length + 5 ≤ maxCaptionLength) :
    (combineWithHashtags caption hashtags).length ≤ maxCaptionLength
    ∧ (caption.length + 2 + (hashtagString hashtags).length ≤ maxCaptionLength →
        combineWithHashtags caption hashtags
          = caption ++ '\n' :: '\n' :: hashtagString hashtags)
    ∧ (maxCaptionLength < caption.length + 2 + (hashtagString hashtags).length →
        combineWithHashtags caption hashtags
          = caption.take (maxCaptionLength - (hashtagString hashtags).length - 5)
              ++ '.' :: '.' :: '.' :: '\n' :: '\n' :: hashtagString hashtags
          ∧ (combineWithHashtags caption hashtags).length = maxCaptionLength) := by
  set hs := hashtagString hashtags with hhs
  have hH : hs.length + 5 ≤ 280 := h
  by_cases hc : caption.length + 2 + hs.length ≤ maxCaptionLength
  · have hres : combineWithHashtags caption hashtags
        = caption ++ '\n' :: '\n' :: hs := by
      simp only [combineWithHashtags, ← hhs]
      split_ifs with hif
      · exfalso
        simp only [maxCaptionLength] at hif hc
        push_cast at hif
        omega
      · simp
    refine ⟨?_, fun _ => hres, fun hgt => absurd hgt (by omega)⟩
    rw [hres]
    simp only [maxCaptionLength] at hc ⊢
    simp
    omega
  · have htn : ((maxCaptionLength : Int) - hs.length - 2 - 3).toNat
        = 275 - hs.length := by
      simp only [maxCaptionLength]
      omega
    have hres : combineWithHashtags caption hashtags
        = caption.take (275 - hs.length)
            ++ '.' :: '.' :: '.' :: '\n' :: '\n' :: hs := by
      simp only [combineWithHashtags, ← hhs]
      split_ifs with hif
      · rw [jsSubstring0, htn]
        simp
      · exfalso
        simp only [maxCaptionLength] at hif hc
        push_cast at hif
        omega
    have hlen : (combineWithHashtags caption hashtags).length = maxCaptionLength := by
      rw [hres]
      simp only [maxCaptionLength] at hc ⊢
      simp [List.length_take]
      omega
    refine ⟨by omega, fun hle => absurd hle hc, fun _ => ⟨?_, hlen⟩⟩
    rw [hres]
    have : maxCaptionLength - hs.length - 5 = 275 - hs.length := by
      simp only [maxCaptionLength]
      omega
    rw [this]

/-- Witness for combineWithHashtags_truncation at a concrete 300-character
caption and the hashtag list containing only "#x". -/
theorem combineWithHashtags_truncation_witness :
    (combineWithHashtags (List.replicate 300 'a') [['#', 'x']]).length
      ≤ maxCaptionLength :=
  (combineWithHashtags_truncation (List.replicate 300 'a') [['#', 'x']]
    (by decide)).1

/-! ### TwitterPoster: browser session state

The in-memory state of the TwitterPoster instance: this.browser, this.page,
this.isLoggedIn, plus a model of the live browser OS processes and a
counter supplying fresh ids for newly launched browsers. -/

structure PosterState where
  browser : Option Nat
  page : Option Nat
  isLoggedIn : Bool
  liveProcs : List Nat
  nextId : Nat
deriving DecidableEq, Repr

/-- The state of a freshly constructed TwitterPoster (constructor sets
browser, page to null and isLoggedIn to false). -/
def PosterState.fresh : PosterState :=
  { browser := none, page := none, isLoggedIn := false, liveProcs := [], nextId := 0 }

/-- initializeBrowser of twitterPoster.js: returns immediately when
this.browser is already set ("Already initialized"); otherwise launches a
browser process and opens a page. -/
def initializeBrowser (s : PosterState) : PosterState :=
  if s.browser.isSome then s
  else
    { browser := some s.nextId, page := some s.nextId, isLoggedIn := s.isLoggedIn,
      liveProcs := s.nextId :: s.liveProcs, nextId := s.nextId + 1 }

/-- closeBrowser of twitterPoster.js. If a browser is open it is closed:
the graceful close races a 5 s timer that SIGKILLs the process, and a close
error also falls back to SIGKILL, so in every branch the process ends and no
branch throws (all errors are caught). The finally block then always resets
this.browser, this.page and this.isLoggedIn, whether or not a browser was
open. -/
def closeBrowser (s : PosterState) : PosterState :=
  { browser := none, page := none, isLoggedIn := false,
    liveProcs :=
      match s.browser with
      | some b => s.liveProcs.erase b
      | none => s.liveProcs,
    nextId := s.nextId }

/-- Awaited effects of postTweetWithRetry, in program order: one full try of
the publish sequence, the diagnostic screenshot of a failed try, the
closeBrowser teardown, the inter-try backoff sleep, and the post-success
deletion of the staged image files. -/
inductive PEvent
  | tryRun (attempt : Nat)
  | screenshot (attempt : Nat)
  | closeSession
  | sleep (ms : Nat)
  | deleteImages
deriving DecidableEq, Repr

/-- Recursion core of postTweetWithRetry. The source tests
attempt < this.maxRetries before recursing with attempt + 1; here
retriesLeft = maxRetries - attempt, so that test reads retriesLeft > 0 and
the recursion is structural. The outcome of one full try (login, compose,
upload, caption, publish) is an oracle indexed by the attempt number; on
success the try has logged in (isLoggedIn := true) and ends WITHOUT closing
the browser, mirroring the source's success path, which returns the tweet
URL right after deleteImageFiles; on failure the catch block captures a
screenshot, closes the browser and, if retries remain, sleeps
retryDelay * (attempt + 1) before the recursive call; otherwise the last
try's error propagates. -/
def postTweetGo (oracle : Nat → Except String String) (retryDelay : Nat) :
    Nat → Nat → PosterState → PosterState × List PEvent × Except String String
  | 0, attempt, s =>
    let s1 := initializeBrowser s
    match oracle attempt with
    | .ok u =>
        ({ s1 with isLoggedIn := true }, [.tryRun attempt, .deleteImages], .ok u)
    | .error e =>
        (closeBrowser s1, [.tryRun attempt, .screenshot attempt, .closeSession],
          .error e)
  | left + 1, attempt, s =>
    let s1 := initializeBrowser s
    match oracle attempt with
    | .ok u =>
        ({ s1 with isLoggedIn := true }, [.tryRun attempt, .deleteImages], .ok u)
    | .error e =>
        let r := postTweetGo oracle retryDelay left (attempt + 1) (closeBrowser s1)
        (r.1, .tryRun attempt :: .screenshot attempt :: .closeSession ::
          .sleep (retryDelay * (attempt + 1)) :: r.2.1, r.2.2)

/-- postTweetWithRetry of twitterPoster.js, with maxRetries - attempt
remaining retries (equal to the source's attempt < maxRetries guard at
every recursion depth, for any starting attempt). -/
def postTweetWithRetry (oracle : Nat → Except String String)
    (maxRetries retryDelay attempt : Nat) (s : PosterState) :
    PosterState × List PEvent × Except String String :=
  postTweetGo oracle retryDelay (maxRetries - attempt) attempt s

/-- initializeBrowser always leaves an open browser handle. -/
theorem initializeBrowser_isSome (s : PosterState) :
    (initializeBrowser s).browser.isSome = true := by
  unfold initializeBrowser
  split
  · assumption
  · rfl

/-- initializeBrowser is the identity on a state whose browser is already
open (the "Already initialized" early return). -/
theorem initializeBrowser_idem (s : PosterState)
    (h : s.browser.isSome = true) : initializeBrowser s = s := by
  simp [initializeBrowser, h]

/-- C9: closeBrowser is idempotent and, from a state whose only live
browser process is the one held in this.browser, a double teardown leaves
no residual process; every call resets browser, page and isLoggedIn, so the
second call is a no-op. The model is total: the source catches every close
and kill error, so no call throws. -/
theorem closeBrowser_idempotent (s : PosterState)
    (h : s.liveProcs = s.browser.toList) :
    closeBrowser (closeBrowser s) = closeBrowser s
    ∧ (closeBrowser s).browser = none
    ∧ (closeBrowser s).page = none
    ∧ (closeBrowser s).isLoggedIn = false
    ∧ (closeBrowser s).liveProcs = [] := by
  refine ⟨rfl, rfl, rfl, rfl, ?_⟩
  cases hb : s.browser with
  | none =>
      rw [hb, Option.toList] at h
      simp [closeBrowser, hb, h]
  | some b =>
      rw [hb, Option.toList] at h
      simp [closeBrowser, hb, h]

/-- Witness for closeBrowser_idempotent at a concrete open session. -/
theorem closeBrowser_idempotent_witness :
    closeBrowser (closeBrowser
        { browser := some 5, page := some 5, isLoggedIn := true,
          liveProcs := [5], nextId := 6 })
      = closeBrowser
        { browser := some 5, page := some 5, isLoggedIn := true,
          liveProcs := [5], nextId := 6 }
    ∧ (closeBrowser
        { browser := some 5, page := some 5, isLoggedIn := true,
          liveProcs := [5], nextId := 6 }).liveProcs = [] := by
  have h := closeBrowser_idempotent
    { browser := some 5, page := some 5, isLoggedIn := true,
      liveProcs := [5], nextId := 6 } (by decide)
  exact ⟨h.1, h.2.2.2.2⟩

/-- Over any starting attempt and state: a run of the retry loop that
resolves successfully ends with an open browser on which initializeBrowser
is a no-op, while a run that ends in an error ends with the browser closed. -/
theorem postTweetGo_session (oracle : Nat → Except String String) (r : Nat) :
    ∀ (left a : Nat) (s : PosterState),
      (∀ u, (postTweetGo oracle r left a s).2.2 = Except.ok u →
        ((postTweetGo oracle r left a s).1.browser.isSome = true
         ∧ initializeBrowser (postTweetGo oracle r left a s).1
             = (postTweetGo oracle r left a s).1))
      ∧ (∀ e, (postTweetGo oracle r left a s).2.2 = Except.error e →
          (postTweetGo oracle r left a s).1.browser = none) := by
  intro left
  induction left with
  | zero =>
      intro a s
      cases ho : oracle a with
      | ok u =>
          refine ⟨fun v _ => ?_, fun e he => ?_⟩
          · have hsome : ({ initializeBrowser s with isLoggedIn := true }
                : PosterState).browser.isSome = true := by
              simpa using initializeBrowser_isSome s
            constructor
            · simpa [postTweetGo, ho] using hsome
            · simp only [postTweetGo, ho]
              exact initializeBrowser_idem _ hsome
          · simp [postTweetGo, ho] at he
      | error e =>
          refine ⟨fun v hv => ?_, fun f _ => ?_⟩
          · simp [postTweetGo, ho] at hv
          · simp [postTweetGo, ho, closeBrowser]
  | succ left ih =>
      intro a s
      cases ho : oracle a with
      | ok u =>
          refine ⟨fun v _ => ?_, fun e he => ?_⟩
          · have hsome : ({ initializeBrowser s with isLoggedIn := true }
                : PosterState).browser.isSome = true := by
              simpa using initializeBrowser_isSome s
            constructor
            · simpa [postTweetGo, ho] using hsome
            · simp only [postTweetGo, ho]
              exact initializeBrowser_idem _ hsome
          · simp [postTweetGo, ho] at he
      | error e =>
          have hrec := ih (a + 1) (closeBrowser (initializeBrowser s))
          refine ⟨fun v hv => ?_, fun f hf => ?_⟩
          · simp only [postTweetGo, ho] at hv ⊢
            exact hrec.1 v hv
          · simp only [postTweetGo, ho] at hf ⊢
            exact hrec.2 f hf

/-- C1 counterexample: a job whose first try succeeds resolves with the
tweet URL, yet the run's final state still holds the browser, page and
login flag, its browser process is still live, and initializeBrowser — the
first step of the next job's postTweet — returns that state unchanged: the
run's in-memory browser state is carried into the next call. -/
theorem postTweet_success_keeps_browser_cex :
    (postTweetWithRetry (fun _ => Except.ok "https://x.com/m/status/1")
        2 5000 0 PosterState.fresh).2.2 = Except.ok "https://x.com/m/status/1"
    ∧ (postTweetWithRetry (fun _ => Except.ok "https://x.com/m/status/1")
        2 5000 0 PosterState.fresh).1.browser = some 0
    ∧ (postTweetWithRetry (fun _ => Except.ok "https://x.com/m/status/1")
        2 5000 0 PosterState.fresh).1.liveProcs = [0]
    ∧ initializeBrowser (postTweetWithRetry (fun _ => Except.ok "https://x.com/m/status/1")
        2 5000 0 PosterState.fresh).1
      = (postTweetWithRetry (fun _ => Except.ok "https://x.com/m/status/1")
        2 5000 0 PosterState.fresh).1 := by
  refine ⟨rfl, rfl, rfl, ?_⟩
  decide

/-- C1 amended: the browser session is torn down before the next try only
on failure; a successful run of postTweetWithRetry resolves with the
browser session still open, and the next postTweet call's
initializeBrowser reuses that session unchanged. Only a run that ends in
an error leaves the browser closed. -/
theorem postTweetWithRetry_session_lifecycle (oracle : Nat → Except String String)
    (maxRetries retryDelay : Nat) (s : PosterState) :
    (∀ u, (postTweetWithRetry oracle maxRetries retryDelay 0 s).2.2 = Except.ok u →
      ((postTweetWithRetry oracle maxRetries retryDelay 0 s).1.browser.isSome = true
       ∧ initializeBrowser (postTweetWithRetry oracle maxRetries retryDelay 0 s).1
           = (postTweetWithRetry oracle maxRetries retryDelay 0 s).1))
    ∧ (∀ e, (postTweetWithRetry oracle maxRetries retryDelay 0 s).2.2 = Except.error e →
        (postTweetWithRetry oracle maxRetries retryDelay 0 s).1.browser = none) :=
  postTweetGo_session oracle retryDelay (maxRetries - 0) 0 s

/-- Witness for postTweetWithRetry_session_lifecycle: a run that succeeds
immediately (its success hypothesis discharged by evaluation). -/
theorem postTweetWithRetry_session_lifecycle_witness :
    ((postTweetWithRetry (fun _ => Except.ok "u") 2 5000 0
        PosterState.fresh).1.browser.isSome = true
     ∧ initializeBrowser (postTweetWithRetry (fun _ => Except.ok "u") 2 5000 0
          PosterState.fresh).1
        = (postTweetWithRetry (fun _ => Except.ok "u") 2 5000 0
            PosterState.fresh).1) :=
  (postTweetWithRetry_session_lifecycle (fun _ => Except.ok "u") 2 5000
    PosterState.fresh).1 "u" rfl

/-- The four events the retry loop emits for one failed try before the
backoff sleep of retryDelay * (attempt + 1) ms. -/
def failBlock (retryDelay attempt : Nat) : List PEvent :=
  [.tryRun attempt, .screenshot attempt, .closeSession,
   .sleep (retryDelay * (attempt + 1))]

/-- Recognizes the event marking the start of one full try. -/
def isTryEvent : PEvent → Bool
  | .tryRun _ => true
  | _ => false

/-- The retry loop with retriesLeft remaining retries performs at most
retriesLeft + 1 tries. -/
theorem postTweetGo_count (oracle : Nat → Except String String) (r : Nat) :
    ∀ (left a : Nat) (s : PosterState),
      ((postTweetGo oracle r left a s).2.1.countP isTryEvent) ≤ left + 1 := by
  intro left
  induction left with
  | zero =>
      intro a s
      cases ho : oracle a <;> simp [postTweetGo, ho, isTryEvent]
  | succ left ih =>
      intro a s
      cases ho : oracle a with
      | ok u => simp [postTweetGo, ho, isTryEvent]
      | error e =>
          have := ih (a + 1) (closeBrowser (initializeBrowser s))
          simp only [postTweetGo, ho, List.countP_cons, isTryEvent]
          simp only [List.countP_cons] at this ⊢
          simp [isTryEvent]
          omega

/-- When every try from attempt a through a + left fails, the retry loop
emits exactly one failBlock per failed try (screenshot, teardown, backoff
sleep of retryDelay * (try index + 1)), ends the last try with screenshot
and teardown but no sleep, and propagates the last try's error. -/
theorem postTweetGo_allFail (oracle : Nat → Except String String)
    (r : Nat) (e : Nat → String) :
    ∀ (left a : Nat) (s : PosterState),
      (∀ i, a ≤ i → i ≤ a + left → oracle i = Except.error (e i)) →
      (postTweetGo oracle r left a s).2.1
        = (List.range' a left).flatMap (failBlock r)
            ++ [.tryRun (a + left), .screenshot (a + left), .closeSession]
      ∧ (postTweetGo oracle r left a s).2.2 = Except.error (e (a + left)) := by
  intro left
  induction left with
  | zero =>
      intro a s h
      have ha := h a (Nat.le_refl a) (by omega)
      simp [postTweetGo, ha]
  | succ left ih =>
      intro a s h
      have ha := h a (Nat.le_refl a) (by omega)
      have hrec := ih (a + 1) (closeBrowser (initializeBrowser s))
        (fun i h1 h2 => h i (by omega) (by omega))
      have hsum : a + 1 + left = a + (left + 1) := by omega
      rw [hsum] at hrec
      constructor
      · simp only [postTweetGo, ha]
        rw [List.range'_succ, List.flatMap_cons, hrec.1]
        simp [failBlock]
      · simp only [postTweetGo, ha]
        exact hrec.2

/-- C6: postTweetWithRetry performs at most maxRetries + 1 sequential tries
(3 with the default maxRetries = 2). When every try fails, each failed try
except the last is followed by a diagnostic screenshot, a full browser
teardown and a linear-backoff sleep of retryDelay * k ms before try k + 1
(failBlock lists exactly these events for 0-based try index k - 1); the
last try is followed by screenshot and teardown only, and its error — the
error of the final failed try — propagates as the result. -/
theorem postTweetWithRetry_attempt_policy (oracle : Nat → Except String String)
    (maxRetries retryDelay : Nat) (s : PosterState) (e : Nat → String) :
    ((postTweetWithRetry oracle maxRetries retryDelay 0 s).2.1.countP isTryEvent)
      ≤ maxRetries + 1
    ∧ ((∀ i, i ≤ maxRetries → oracle i = Except.error (e i)) →
        (postTweetWithRetry oracle maxRetries retryDelay 0 s).2.1
          = (List.range' 0 maxRetries).flatMap (failBlock retryDelay)
              ++ [.tryRun maxRetries, .screenshot maxRetries, .closeSession]
        ∧ (postTweetWithRetry oracle maxRetries retryDelay 0 s).2.2
            = Except.error (e maxRetries)) := by
  constructor
  · exact postTweetGo_count oracle retryDelay (maxRetries - 0) 0 s
  · intro hf
    have h := postTweetGo_allFail oracle retryDelay e (maxRetries - 0) 0 s
      (fun i h1 h2 => hf i (by omega))
    simpa [postTweetWithRetry] using h

/-- Witness for postTweetWithRetry_attempt_policy: all three tries of a
default-configured run (maxRetries 2, retryDelay 5000) fail. -/
theorem postTweetWithRetry_attempt_policy_witness :
    (postTweetWithRetry (fun _ => Except.error "boom") 2 5000 0
        PosterState.fresh).2.1
      = (List.range' 0 2).flatMap (failBlock 5000)
          ++ [.tryRun 2, .screenshot 2, .closeSession]
    ∧ (postTweetWithRetry (fun _ => Except.error "boom") 2 5000 0
        PosterState.fresh).2.2 = Except.error "boom" :=
  (postTweetWithRetry_attempt_policy (fun _ => Except.error "boom") 2 5000
    PosterState.fresh (fun _ => "boom")).2 (fun i _ => rfl)

/-! ### postTweetWithTimeout: the overall deadline race -/

/-- The error message of the deadline branch of postTweetWithTimeout. -/
def timeoutMsg : String := "Tweet posting timeout - process took too long"

/-- One in-flight run of postTweetWithRetry as seen by the race in
postTweetWithTimeout: the wall-clock time at which its promise settles
(none when it never settles), the value or error it settles with, and the
TwitterPoster state at each point in wall-clock time while it runs. -/
structure RunTrace where
  settle : Option Nat
  result : Except String String
  stateAt : Nat → PosterState

/-- postTweetWithTimeout of twitterPoster.js: Promise.race of the inner
run against a setTimeout rejection. The first component of the value is the
time at which the race settles, the second the settled outcome, the third
the TwitterPoster state at that time. If the inner run settles by
timeoutMs, its outcome wins; otherwise the timer fires at timeoutMs and the
race rejects with the Timeout error; the timer callback performs no other
action, so the poster state at that moment is whatever the still-running
inner attempt has built. -/
def postTweetWithTimeout (tr : RunTrace) (timeoutMs : Nat) :
    Nat × Except String String × PosterState :=
  match tr.settle with
  | some t =>
      if t ≤ timeoutMs then (t, tr.result, tr.stateAt t)
      else (timeoutMs, Except.error timeoutMsg, tr.stateAt timeoutMs)
  | none => (timeoutMs, Except.error timeoutMsg, tr.stateAt timeoutMs)

/-- postTweet of twitterPoster.js: postTweetWithTimeout with the hard-coded
120000 ms overall deadline. -/
def postTweet (tr : RunTrace) : Nat × Except String String × PosterState :=
  postTweetWithTimeout tr 120000

/-- C2 counterexample: a publish run that hangs past the deadline with an
open browser. The deadline expires and the call rejects with the Timeout
error, but the browser, its page and its live process all survive expiry:
the deadline path performs no teardown. -/
theorem deadline_no_teardown_cex :
    (postTweetWithTimeout
        { settle := none, result := Except.ok "unused",
          stateAt := fun _ =>
            { browser := some 0, page := some 0, isLoggedIn := true,
              liveProcs := [0], nextId := 1 } } 120000).2.1
      = Except.error timeoutMsg
    ∧ (postTweetWithTimeout
        { settle := none, result := Except.ok "unused",
          stateAt := fun _ =>
            { browser := some 0, page := some 0, isLoggedIn := true,
              liveProcs := [0], nextId := 1 } } 120000).2.2.browser = some 0
    ∧ (postTweetWithTimeout
        { settle := none, result := Except.ok "unused",
          stateAt := fun _ =>
            { browser := some 0, page := some 0, isLoggedIn := true,
              liveProcs := [0], nextId := 1 } } 120000).2.2.liveProcs = [0] :=
  ⟨rfl, rfl, rfl⟩

/-- C2 amended: when the overall deadline expires before the run settles,
the call rejects with the Timeout error at the deadline and the in-progress
phase's outcome is discarded, but the deadline path tears nothing down: the
poster state of the result is exactly the in-progress run's state at
expiry. Teardown happens only when the inner run's own failure handler
calls closeBrowser (which does force-kill a hung browser, see
closeBrowser). -/
theorem postTweetWithTimeout_expiry_state (tr : RunTrace) (timeoutMs : Nat)
    (h : ∀ t, tr.settle = some t → timeoutMs < t) :
    postTweetWithTimeout tr timeoutMs
      = (timeoutMs, Except.error timeoutMsg, tr.stateAt timeoutMs) := by
  cases hs : tr.settle with
  | none => simp [postTweetWithTimeout, hs]
  | some t =>
      have ht := h t hs
      have hn : ¬ t ≤ timeoutMs := by omega
      simp [postTweetWithTimeout, hs, hn]

/-- Witness for postTweetWithTimeout_expiry_state: a run that never
settles. -/
theorem postTweetWithTimeout_expiry_state_witness :
    postTweetWithTimeout
        { settle := none, result := Except.error "inner",
          stateAt := fun _ => PosterState.fresh } 120000
      = (120000, Except.error timeoutMsg, PosterState.fresh) :=
  postTweetWithTimeout_expiry_state
    { settle := none, result := Except.error "inner",
      stateAt := fun _ => PosterState.fresh } 120000
    (fun t ht => by simp at ht)

/-- C3: every postTweet call settles by the 120000 ms overall deadline; in
particular a run that has not settled within the deadline yields the
Timeout error exactly at 120000 ms, whatever internal phase is in
progress. -/
theorem postTweet_overall_deadline (tr : RunTrace) :
    (postTweet tr).1 ≤ 120000
    ∧ ((∀ t, tr.settle = some t → 120000 < t) →
        (postTweet tr).1 = 120000
        ∧ (postTweet tr).2.1 = Except.error timeoutMsg) := by
  constructor
  · unfold postTweet postTweetWithTimeout
    cases hs : tr.settle with
    | none => simp
    | some t =>
        dsimp only
        split
        · simpa
        · simp
  · intro h
    have := postTweetWithTimeout_expiry_state tr 120000 h
    unfold postTweet
    rw [this]
    exact ⟨rfl, rfl⟩

/-- Witness for postTweet_overall_deadline: a hanging run yields Timeout at
the deadline. -/
theorem postTweet_overall_deadline_witness :
    (postTweet { settle := none, result := Except.ok "x",
                 stateAt := fun _ => PosterState.fresh }).1 = 120000
    ∧ (postTweet { settle := none, result := Except.ok "x",
                   stateAt := fun _ => PosterState.fresh }).2.1
        = Except.error timeoutMsg :=
  (postTweet_overall_deadline
    { settle := none, result := Except.ok "x",
      stateAt := fun _ => PosterState.fresh }).2
    (fun t ht => by simp at ht)

/-! ### verifyTweetSuccess and extractTweetUrlFromPage -/

/-- A URL or link target, as a list of characters. -/
abbrev Href := List Char

/-- JS String.prototype.includes: substring containment. -/
def jsIncludes (pat s : Href) : Bool := decide (List.IsInfix pat s)

/-- The substring '/status/' tested with String.includes. -/
def statusPat : Href := "/status/".toList

/-- The substring '/compose' tested with String.includes in the
modal-disappearance check of verifyTweetSuccess. -/
def composePat : Href := "/compose".toList

/-- The DOM query for anchors with '/status/' hrefs, after the source's
regex match: each anchor yields its href and its parsed numeric tweet id.
sort((a, b) => b.timestamp - a.timestamp)[0] on a stable sort returns the
first-encountered link with the greatest id, which this fold computes. -/
def newestHref (links : List (Href × Nat)) : Option Href :=
  (links.foldl
    (fun acc l =>
      match acc with
      | none => some l
      | some b => if b.2 < l.2 then some l else some b)
    none).map (fun p => p.1)

/-- extractTweetUrlFromPage of twitterPoster.js: return the current URL if
it already contains '/status/'; otherwise the newest status link in the
current page DOM; otherwise navigate to the profile and return its newest
status link; otherwise throw. profileLinks is the observation of the
profile page used by the fallback navigation. -/
def extractTweetUrlFromPage (url : Href) (statusLinks profileLinks : List (Href × Nat)) :
    Except String Href :=
  if jsIncludes statusPat url then Except.ok url
  else
    match newestHref statusLinks with
    | some h => Except.ok h
    | none =>
        match newestHref profileLinks with
        | some h => Except.ok h
        | none =>
            Except.error
              "Unable to extract tweet URL - tweet may not have been posted successfully"

/-- One observation of the page during a verification poll iteration: the
current URL, the '/status/' anchors in the DOM, the href of a status link
whose text contains 'view' (the View button) if any, whether the body text
contains a success notification ('Your post was sent' / 'Post was sent'),
and whether the compose textarea is still present. -/
structure PageObs where
  url : Href
  statusLinks : List (Href × Nat)
  viewLink : Option Href
  successNote : Bool
  composeModal : Bool
deriving DecidableEq, Repr

/-- Outcome of one iteration of the verifyTweetSuccess polling loop:
success with a URL, an iteration whose success signal fired but whose URL
lookup threw (the catch block logs and keeps polling), or no signal yet. -/
inductive VStep
  | success (u : Href)
  | lookupFailed
  | waiting
deriving DecidableEq, Repr

/-- One iteration of the verifyTweetSuccess while-loop, in source order:
(1) the current URL contains '/status/': success with that URL;
(2) a View link exists: success with its href;
(3) the success notification is visible: success with the newest status
    link in the DOM, or, when none is there yet, with the result of
    extractTweetUrlFromPage — whose failure is caught by the loop's catch;
(4) the compose modal is gone and the URL does not contain '/compose':
    success with the result of extractTweetUrlFromPage, same caveat;
otherwise keep waiting. The extra 3-second settles before the lookups do
not change which iteration observation is consulted here. -/
def stepVerify (pg : PageObs) (profileLinks : List (Href × Nat)) : VStep :=
  if jsIncludes statusPat pg.url then .success pg.url
  else
    match pg.viewLink with
    | some h => .success h
    | none =>
        if pg.successNote then
          match newestHref pg.statusLinks with
          | some h => .success h
          | none =>
              match extractTweetUrlFromPage pg.url pg.statusLinks profileLinks with
              | .ok u => .success u
              | .error _ => .lookupFailed
        else
          if !pg.composeModal && !jsIncludes composePat pg.url then
            match extractTweetUrlFromPage pg.url pg.statusLinks profileLinks with
            | .ok u => .success u
            | .error _ => .lookupFailed
          else .waiting

/-- The error thrown when the 20 s verification window closes without a
success signal. -/
def verifyFailMsg : String :=
  "Tweet posting verification failed - no success indicators found within timeout period"

/-- The verifyTweetSuccess polling loop: maxWaitTime 20000 ms at
checkInterval 1000 ms gives at most 20 iterations (the catch path advances
waitTime exactly like the no-signal path); k indexes the iteration and rem
counts the iterations left in the window. -/
def verifyGo (obs : Nat → PageObs × List (Href × Nat)) :
    Nat → Nat → Except String Href
  | 0, _ => Except.error verifyFailMsg
  | rem + 1, k =>
      match stepVerify (obs k).1 (obs k).2 with
      | .success u => Except.ok u
      | _ => verifyGo obs rem (k + 1)

/-- verifyTweetSuccess of twitterPoster.js over a stream of per-iteration
page observations. -/
def verifyTweetSuccess (obs : Nat → PageObs × List (Href × Nat)) :
    Except String Href :=
  verifyGo obs 20 0

/-- Observation stream of a page where the publish evidently went through
(compose modal gone, away from the compose location) but no status link is
discoverable anywhere, not even on the profile. -/
def obsNoRef : Nat → PageObs × List (Href × Nat) := fun _ =>
  ({ url := "https://x.com/home".toList, statusLinks := [], viewLink := none,
     successNote := false, composeModal := false }, [])

/-- The same page state except that one status link is discoverable in the
DOM. -/
def obsWithRef : Nat → PageObs × List (Href × Nat) := fun _ =>
  ({ url := "https://x.com/home".toList,
     statusLinks := [("https://x.com/m/status/9".toList, 9)], viewLink := none,
     successNote := false, composeModal := false }, [])

/-- C4 counterexample: the compose-surface-gone success signal holds at
every poll iteration of obsNoRef, yet verifyTweetSuccess rejects with the
verification-timeout error because the permanent-URL lookup keeps throwing;
with a discoverable link (obsWithRef) and otherwise identical state it
resolves success. Verification success is therefore decided by the lookup,
not independently of it. -/
theorem verify_lookup_dependent_cex :
    (obsNoRef 0).1.composeModal = false
    ∧ jsIncludes composePat (obsNoRef 0).1.url = false
    ∧ verifyTweetSuccess obsNoRef = Except.error verifyFailMsg
    ∧ verifyTweetSuccess obsWithRef = Except.ok "https://x.com/m/status/9".toList := by
  refine ⟨rfl, by decide, ?_, ?_⟩
  · decide
  · decide

/-- The polling loop resolves success at the first iteration whose step
reports success. -/
theorem verifyGo_ok (obs : Nat → PageObs × List (Href × Nat)) (u : Href)
    (j : Nat) :
    ∀ rem k, k ≤ j → j < k + rem →
      (∀ i, k ≤ i → i < j → ∀ v, stepVerify (obs i).1 (obs i).2 ≠ VStep.success v) →
      stepVerify (obs j).1 (obs j).2 = VStep.success u →
      verifyGo obs rem k = Except.ok u := by
  intro rem
  induction rem with
  | zero =>
      intro k hk hlt _ _
      omega
  | succ rem ih =>
      intro k hk hlt hbefore hstep
      by_cases hkj : k = j
      · subst hkj
        simp [verifyGo, hstep]
      · have hklt : k < j := by omega
        cases hs : stepVerify (obs k).1 (obs k).2 with
        | success v => exact absurd hs (hbefore k (Nat.le_refl k) hklt v)
        | lookupFailed =>
            simp only [verifyGo, hs]
            exact ih (k + 1) (by omega) (by omega)
              (fun i h1 h2 v => hbefore i (by omega) h2 v) hstep
        | waiting =>
            simp only [verifyGo, hs]
            exact ih (k + 1) (by omega) (by omega)
              (fun i h1 h2 v => hbefore i (by omega) h2 v) hstep

/-- The polling loop rejects with the verification-timeout error when no
iteration in the window reports success — in particular when every success
signal's URL lookup keeps failing. -/
theorem verifyGo_none (obs : Nat → PageObs × List (Href × Nat)) :
    ∀ rem k,
      (∀ i, k ≤ i → i < k + rem → ∀ v, stepVerify (obs i).1 (obs i).2 ≠ VStep.success v) →
      verifyGo obs rem k = Except.error verifyFailMsg := by
  intro rem
  induction rem with
  | zero => intro k _; simp [verifyGo]
  | succ rem ih =>
      intro k hnone
      cases hs : stepVerify (obs k).1 (obs k).2 with
      | success v => exact absurd hs (hnone k (Nat.le_refl k) (by omega) v)
      | lookupFailed =>
          simp only [verifyGo, hs]
          exact ih (k + 1) (fun i h1 h2 v => hnone i (by omega) (by omega) v)
      | waiting =>
          simp only [verifyGo, hs]
          exact ih (k + 1) (fun i h1 h2 v => hnone i (by omega) (by omega) v)

/-- C4 amended: each of verifyTweetSuccess's success signals makes its poll
iteration succeed, except that the notification-without-discoverable-link
and compose-surface-gone signals succeed only when the permanent-URL lookup
does: (1) a '/status/' URL alone suffices, no lookup involved; (2) a View
link alone suffices, no lookup involved; (3) the success notification with
a discoverable status link in the DOM suffices, no lookup involved; (4) the
success notification with no discoverable link makes the iteration's
outcome equal the lookup's outcome, a failed lookup being caught so that
polling continues; (5) under the compose-surface-gone signal (compose
textarea absent and URL off '/compose') the iteration's outcome likewise
equals the lookup's outcome; (6) the run resolves success at the first
succeeding iteration inside the 20 s window; (7) if no iteration succeeds
in the window — e.g. the lookup fails throughout — the run rejects with the
verification-timeout error. -/
theorem verifyTweetSuccess_signals (obs : Nat → PageObs × List (Href × Nat))
    (j : Nat) (u : Href) :
    (∀ pg pr, jsIncludes statusPat pg.url = true →
        stepVerify pg pr = VStep.success pg.url)
    ∧ (∀ (pg : PageObs) pr h, jsIncludes statusPat pg.url = false →
        pg.viewLink = some h →
        stepVerify pg pr = VStep.success h)
    ∧ (∀ (pg : PageObs) pr h, jsIncludes statusPat pg.url = false →
        pg.viewLink = none → pg.successNote = true →
        newestHref pg.statusLinks = some h →
        stepVerify pg pr = VStep.success h)
    ∧ (∀ (pg : PageObs) pr, jsIncludes statusPat pg.url = false →
        pg.viewLink = none → pg.successNote = true →
        newestHref pg.statusLinks = none →
        ((∀ v, extractTweetUrlFromPage pg.url pg.statusLinks pr = Except.ok v →
            stepVerify pg pr = VStep.success v)
         ∧ (∀ msg, extractTweetUrlFromPage pg.url pg.statusLinks pr = Except.error msg →
            stepVerify pg pr = VStep.lookupFailed)))
    ∧ (∀ (pg : PageObs) pr, jsIncludes statusPat pg.url = false →
        pg.viewLink = none → pg.successNote = false →
        pg.composeModal = false → jsIncludes composePat pg.url = false →
        ((∀ v, extractTweetUrlFromPage pg.url pg.statusLinks pr = Except.ok v →
            stepVerify pg pr = VStep.success v)
         ∧ (∀ msg, extractTweetUrlFromPage pg.url pg.statusLinks pr = Except.error msg →
            stepVerify pg pr = VStep.lookupFailed)))
    ∧ (j < 20 →
        (∀ i, i < j → ∀ v, stepVerify (obs i).1 (obs i).2 ≠ VStep.success v) →
        stepVerify (obs j).1 (obs j).2 = VStep.success u →
        verifyTweetSuccess obs = Except.ok u)
    ∧ ((∀ i, i < 20 → ∀ v, stepVerify (obs i).1 (obs i).2 ≠ VStep.success v) →
        verifyTweetSuccess obs = Except.error verifyFailMsg) := by
  refine ⟨?_, ?_, ?_, ?_, ?_, ?_, ?_⟩
  · intro pg pr h
    simp [stepVerify, h]
  · intro pg pr h hst hview
    simp [stepVerify, hst, hview]
  · intro pg pr h hst hview hnote hlink
    simp [stepVerify, hst, hview, hnote, hlink]
  · intro pg pr hst hview hnote hlink
    constructor
    · intro v hv
      simp [stepVerify, hst, hview, hnote, hlink, hv]
    · intro msg hmsg
      simp [stepVerify, hst, hview, hnote, hlink, hmsg]
  · intro pg pr hst hview hnote hmodal hcomp
    constructor
    · intro v hv
      simp [stepVerify, hst, hview, hnote, hmodal, hcomp, hv]
    · intro msg hmsg
      simp [stepVerify, hst, hview, hnote, hmodal, hcomp, hmsg]
  · intro hj hbefore hstep
    exact verifyGo_ok obs u j 20 0 (by omega) (by omega)
      (fun i h1 h2 v => hbefore i h2 v) hstep
  · intro hnone
    exact verifyGo_none obs 20 0 (fun i h1 h2 v => hnone i (by omega) v)

/-- Witness for verifyTweetSuccess_signals: an observation stream whose
first iteration already sits on a '/status/' URL resolves success with that
URL. -/
theorem verifyTweetSuccess_signals_witness :
    verifyTweetSuccess
        (fun _ => ({ url := "https://x.com/m/status/7".toList, statusLinks := [],
                     viewLink := none, successNote := false, composeModal := false },
                   []))
      = Except.ok "https://x.com/m/status/7".toList :=
  (verifyTweetSuccess_signals
      (fun _ => ({ url := "https://x.com/m/status/7".toList, statusLinks := [],
                   viewLink := none, successNote := false, composeModal := false },
                 []))
      0 "https://x.com/m/status/7".toList).2.2.2.2.2.1
    (by omega) (fun i hi v => absurd hi (Nat.not_lt_zero i)) (by decide)

/-! ### uploadImages: soft media-count verification -/

/-- Awaited effects of the post-upload poll of uploadImages: one poll of
the rendered-media selectors (attempt index and element count found), the
1500 ms sleep after a failed poll, the expected-vs-found warning, and the
best-effort debug screenshot. -/
inductive UEvent
  | poll (attempt found : Nat)
  | pollSleep (ms : Nat)
  | warnCount (found expected : Nat)
  | debugScreenshot
deriving DecidableEq, Repr

/-- The while-loop of uploadImages that polls for rendered media elements:
maxAttempts is 3; counts gives the element count observed by the selector
scan at each attempt; a poll matching the expected count breaks out, a
failed poll sleeps 1500 ms; on exhaustion the count of the last poll is
kept. rem is the number of attempts left (3 - attempts). -/
def pollGo (expected : Nat) (counts : Nat → Nat) :
    Nat → Nat → List UEvent × Nat
  | 0, attempts => ([], counts (attempts - 1))
  | rem + 1, attempts =>
      let found := counts attempts
      if found = expected then ([UEvent.poll attempts found], found)
      else
        let r := pollGo expected counts rem (attempts + 1)
        (UEvent.poll attempts found :: UEvent.pollSleep 1500 :: r.1, r.2)

/-- uploadImages of twitterPoster.js, from the point where all image paths
have been submitted in one uploadFile call: it throws earlier only when no
file input could be located (fileInputFound = false); afterwards it polls
up to 3 times for media elements matching the expected count and, when the
count never matches, logs a warning and captures a best-effort diagnostic
screenshot but still resolves, so the phase never fails on a count
mismatch. -/
def uploadImages (fileInputFound : Bool) (expected : Nat) (counts : Nat → Nat) :
    Except String (List UEvent × Nat) :=
  if fileInputFound = false then
    Except.error "Could not find file input for image upload."
  else
    let r := pollGo expected counts 3 0
    if r.2 ≠ expected then
      Except.ok (r.1 ++ [UEvent.warnCount r.2 expected, UEvent.debugScreenshot], r.2)
    else
      Except.ok r

/-- C8: when the expected media count is never observed in any of the 3
polls, uploadImages still resolves (the attempt is not failed): it emits
the three polls with their 1500 ms sleeps, a warning with the found and
expected counts, and a diagnostic screenshot, and proceeds with whatever
was found. -/
theorem uploadImages_soft_count (expected : Nat) (counts : Nat → Nat)
    (h : ∀ i, i < 3 → counts i ≠ expected) :
    uploadImages true expected counts
      = Except.ok
          ([UEvent.poll 0 (counts 0), UEvent.pollSleep 1500,
            UEvent.poll 1 (counts 1), UEvent.pollSleep 1500,
            UEvent.poll 2 (counts 2), UEvent.pollSleep 1500,
            UEvent.warnCount (counts 2) expected, UEvent.debugScreenshot],
           counts 2) := by
  have h0 := h 0 (by omega)
  have h1 := h 1 (by omega)
  have h2 := h 2 (by omega)
  simp [uploadImages, pollGo, h0, h1, h2]

/-- Witness for uploadImages_soft_count: two images expected, none ever
rendered. -/
theorem uploadImages_soft_count_witness :
    uploadImages true 2 (fun _ => 0)
      = Except.ok
          ([UEvent.poll 0 0, UEvent.pollSleep 1500,
            UEvent.poll 1 0, UEvent.pollSleep 1500,
            UEvent.poll 2 0, UEvent.pollSleep 1500,
            UEvent.warnCount 0 2, UEvent.debugScreenshot], 0) :=
  uploadImages_soft_count 2 (fun _ => 0) (fun i _ => by simp)

/-! ### QueueManager: processQueue -/

/-- A queued post job: its id and its retries counter (0 at enqueue). -/
structure QJob where
  id : Nat
  retries : Nat
deriving DecidableEq, Repr

/-- The config.queue object of src/config.js handed to the QueueManager
constructor: postDelay, maxRetries and retryDelay knobs. -/
structure QueueConfig where
  postDelay : Nat
  maxRetries : Nat
  retryDelay : Nat
deriving DecidableEq, Repr

/-- JS "v || d": 0 is falsy and selects the default. -/
def jsOr (v d : Nat) : Nat := if v = 0 then d else v

/-- The fields a QueueManager instance keeps. The constructor reads only
config.postDelay and config.maxRetries; config.retryDelay is never read. -/
structure QueueManager where
  postDelay : Nat
  maxRetries : Nat
deriving DecidableEq, Repr

/-- The QueueManager constructor: this.postDelay = config.postDelay || 20000,
this.maxRetries = config.maxRetries || 2. The configured retryDelay is not
stored anywhere. -/
def mkQueueManager (cfg : QueueConfig) : QueueManager :=
  { postDelay := jsOr cfg.postDelay 20000, maxRetries := jsOr cfg.maxRetries 2 }

/-- Awaited effects of the processQueue loop, in program order: one
processPost run of a job (with the retries value it carried), the
inter-post delay, the pre-retry backoff wait, and a dropped job after
budget exhaustion. -/
inductive QEvent
  | process (id retries : Nat)
  | postWait (ms : Nat)
  | retryWait (ms : Nat)
  | drop (id : Nat)
deriving DecidableEq, Repr

/-- Termination budget of the processQueue loop: each job can occupy the
head for at most maxRetries - retries + 1 iterations. -/
def queueFuel (qm : QueueManager) : List QJob → Nat
  | [] => 0
  | j :: rest => (qm.maxRetries - j.retries) + 1 + queueFuel qm rest

/-- The while-loop of processQueue, one iteration per fuel unit: shift the
head job and run it; on success wait postDelay only when the backlog is
still non-empty; on failure with retries < maxRetries increment the
counter, unshift the job back to the front and wait the hard-coded
5000 ms base times the new counter; otherwise drop the job. -/
def processQueueGo (qm : QueueManager) (outcome : Nat → Nat → Bool) :
    Nat → List QJob → List QEvent
  | _, [] => []
  | 0, _ :: _ => []
  | fuel + 1, j :: rest =>
      if outcome j.id j.retries then
        QEvent.process j.id j.retries ::
          (if 0 < rest.length then
            QEvent.postWait qm.postDelay :: processQueueGo qm outcome fuel rest
          else processQueueGo qm outcome fuel rest)
      else if j.retries < qm.maxRetries then
        QEvent.process j.id j.retries
          :: QEvent.retryWait (5000 * (j.retries + 1))
          :: processQueueGo qm outcome fuel
               ({ id := j.id, retries := j.retries + 1 } :: rest)
      else
        QEvent.process j.id j.retries :: QEvent.drop j.id
          :: processQueueGo qm outcome fuel rest

/-- processQueue of queueManager.js over an initial backlog, with the
outcome oracle telling whether processPost succeeds for a given job id and
retries value. -/
def processQueue (qm : QueueManager) (outcome : Nat → Nat → Bool)
    (queue : List QJob) : List QEvent :=
  processQueueGo qm outcome (queueFuel qm queue) queue

/-- Any fuel at least the queue's budget computes processQueue. -/
theorem processQueueGo_fuel (qm : QueueManager) (outcome : Nat → Nat → Bool) :
    ∀ fuel queue, queueFuel qm queue ≤ fuel →
      processQueueGo qm outcome fuel queue = processQueue qm outcome queue := by
  intro fuel
  induction fuel using Nat.strong_induction_on with
  | _ fuel ih =>
    intro queue hq
    match queue with
    | [] =>
        cases fuel <;> simp [processQueueGo, processQueue, queueFuel]
    | j :: rest =>
        have hcons : queueFuel qm (j :: rest)
            = (qm.maxRetries - j.retries) + 1 + queueFuel qm rest := rfl
        cases fuel with
        | zero => omega
        | succ f =>
            obtain ⟨k, hk⟩ : ∃ k, queueFuel qm (j :: rest) = k + 1 :=
              ⟨queueFuel qm (j :: rest) - 1, by omega⟩
            unfold processQueue
            rw [hk]
            simp only [processQueueGo]
            by_cases ho : outcome j.id j.retries = true
            · have e1 := ih f (by omega) rest (by omega)
              have e2 := ih k (by omega) rest (by omega)
              rw [if_pos ho]
              rw [if_pos ho]
              simp only [e1, e2]
            · by_cases hr : j.retries < qm.maxRetries
              · have hsub : queueFuel qm ({ id := j.id, retries := j.retries + 1 } :: rest)
                    = k := by
                  have : queueFuel qm ({ id := j.id, retries := j.retries + 1 } :: rest)
                      = (qm.maxRetries - (j.retries + 1)) + 1 + queueFuel qm rest := rfl
                  omega
                have e1 := ih f (by omega)
                  ({ id := j.id, retries := j.retries + 1 } :: rest) (by omega)
                have e2 := ih k (by omega)
                  ({ id := j.id, retries := j.retries + 1 } :: rest) (by omega)
                rw [if_neg ho]
                rw [if_neg ho]
                rw [if_pos hr]
                rw [if_pos hr]
                simp only [e1, e2]
              · have e1 := ih f (by omega) rest (by omega)
                have e2 := ih k (by omega) rest (by omega)
                rw [if_neg ho]
                rw [if_neg ho]
                rw [if_neg hr]
                rw [if_neg hr]
                simp only [e1, e2]

/-- Unfolding of processQueue at a head job whose processPost succeeds. -/
theorem processQueue_cons_success (qm : QueueManager) (outcome : Nat → Nat → Bool)
    (j : QJob) (rest : List QJob) (h : outcome j.id j.retries = true) :
    processQueue qm outcome (j :: rest)
      = QEvent.process j.id j.retries ::
          (if 0 < rest.length then
            QEvent.postWait qm.postDelay :: processQueue qm outcome rest
          else processQueue qm outcome rest) := by
  have hcons : queueFuel qm (j :: rest)
      = (qm.maxRetries - j.retries) + 1 + queueFuel qm rest := rfl
  obtain ⟨k, hk⟩ : ∃ k, queueFuel qm (j :: rest) = k + 1 :=
    ⟨queueFuel qm (j :: rest) - 1, by omega⟩
  conv_lhs => rw [processQueue, hk]
  simp only [processQueueGo]
  rw [if_pos h]
  simp only [processQueueGo_fuel qm outcome k rest (by omega)]

/-- Unfolding of processQueue at a head job whose processPost fails with
retry budget remaining: the job comes back at the front with retries + 1
after a 5000 * (retries + 1) ms wait. -/
theorem processQueue_cons_retry (qm : QueueManager) (outcome : Nat → Nat → Bool)
    (j : QJob) (rest : List QJob) (h : outcome j.id j.retries = false)
    (hr : j.retries < qm.maxRetries) :
    processQueue qm outcome (j :: rest)
      = QEvent.process j.id j.retries
          :: QEvent.retryWait (5000 * (j.retries + 1))
          :: processQueue qm outcome ({ id := j.id, retries := j.retries + 1 } :: rest) := by
  have hcons : queueFuel qm (j :: rest)
      = (qm.maxRetries - j.retries) + 1 + queueFuel qm rest := rfl
  have hsub : queueFuel qm ({ id := j.id, retries := j.retries + 1 } :: rest)
      = (qm.maxRetries - (j.retries + 1)) + 1 + queueFuel qm rest := rfl
  have hne : ¬ (outcome j.id j.retries = true) := by simp [h]
  obtain ⟨k, hk⟩ : ∃ k, queueFuel qm (j :: rest) = k + 1 :=
    ⟨queueFuel qm (j :: rest) - 1, by omega⟩
  conv_lhs => rw [processQueue, hk]
  simp only [processQueueGo]
  rw [if_neg hne]
  rw [if_pos hr]
  rw [processQueueGo_fuel qm outcome k
    ({ id := j.id, retries := j.retries + 1 } :: rest) (by omega)]

/-- C5 counterexample: with queueRetryDelayMs configured to 7000 ms, a job
that fails its first run and succeeds on retry waits 5000 ms — the
hard-coded base — not 7000 * 1: the configured retryDelay knob is ignored
by the processQueue loop. -/
theorem queue_retry_wait_cex :
    processQueue (mkQueueManager { postDelay := 20000, maxRetries := 2, retryDelay := 7000 })
        (fun _ r => decide (1 ≤ r)) [{ id := 1, retries := 0 }]
      = [QEvent.process 1 0, QEvent.retryWait 5000, QEvent.process 1 1]
    ∧ QEvent.retryWait (7000 * 1)
        ∉ processQueue
            (mkQueueManager { postDelay := 20000, maxRetries := 2, retryDelay := 7000 })
            (fun _ r => decide (1 ≤ r)) [{ id := 1, retries := 0 }] := by
  constructor
  · decide
  · decide

/-- C5 amended: when the head job's run fails and its retries counter is
still below maxRetries, processQueue increments the counter, pushes the job
back to the front of the backlog (ahead of every job in rest), and waits
5000 ms — the hard-coded base, equal to queueRetryDelayMs's default but
unaffected by its configured value — times the job's new attempt count
before resuming the loop. -/
theorem processQueue_requeue_front (cfg : QueueConfig) (outcome : Nat → Nat → Bool)
    (j : QJob) (rest : List QJob)
    (hfail : outcome j.id j.retries = false)
    (hbudget : j.retries < (mkQueueManager cfg).maxRetries) :
    processQueue (mkQueueManager cfg) outcome (j :: rest)
      = QEvent.process j.id j.retries
          :: QEvent.retryWait (5000 * (j.retries + 1))
          :: processQueue (mkQueueManager cfg) outcome
               ({ id := j.id, retries := j.retries + 1 } :: rest) :=
  processQueue_cons_retry (mkQueueManager cfg) outcome j rest hfail hbudget

/-- Witness for processQueue_requeue_front: default queue config, a job
failing its first run. -/
theorem processQueue_requeue_front_witness :
    processQueue (mkQueueManager { postDelay := 20000, maxRetries := 2, retryDelay := 5000 })
        (fun _ _ => false) [{ id := 4, retries := 0 }, { id := 9, retries := 0 }]
      = QEvent.process 4 0
          :: QEvent.retryWait (5000 * 1)
          :: processQueue
               (mkQueueManager { postDelay := 20000, maxRetries := 2, retryDelay := 5000 })
               (fun _ _ => false)
               [{ id := 4, retries := 1 }, { id := 9, retries := 0 }] :=
  processQueue_requeue_front
    { postDelay := 20000, maxRetries := 2, retryDelay := 5000 }
    (fun _ _ => false) { id := 4, retries := 0 } [{ id := 9, retries := 0 }]
    rfl (by decide)

/-- C7: with two queued jobs that both succeed, the inter-post delay is
awaited exactly once, between the first job's completion and the second
job's processing; with a single job no delay is awaited at all. -/
theorem processQueue_interpost_delay (qm : QueueManager)
    (outcome : Nat → Nat → Bool) (a b : QJob)
    (ha : outcome a.id a.retries = true) (hb : outcome b.id b.retries = true) :
    processQueue qm outcome [a, b]
      = [QEvent.process a.id a.retries, QEvent.postWait qm.postDelay,
         QEvent.process b.id b.retries]
    ∧ processQueue qm outcome [a] = [QEvent.process a.id a.retries] := by
  have hb1 : processQueue qm outcome [b]
      = QEvent.process b.id b.retries ::
          (if 0 < ([] : List QJob).length then
            QEvent.postWait qm.postDelay :: processQueue qm outcome []
          else processQueue qm outcome []) :=
    processQueue_cons_success qm outcome b [] hb
  have ha1 : processQueue qm outcome [a]
      = QEvent.process a.id a.retries ::
          (if 0 < ([] : List QJob).length then
            QEvent.postWait qm.postDelay :: processQueue qm outcome []
          else processQueue qm outcome []) :=
    processQueue_cons_success qm outcome a [] ha
  have hnil : processQueue qm outcome [] = [] := rfl
  have hab : processQueue qm outcome [a, b]
      = QEvent.process a.id a.retries ::
          (if 0 < [b].length then
            QEvent.postWait qm.postDelay :: processQueue qm outcome [b]
          else processQueue qm outcome [b]) :=
    processQueue_cons_success qm outcome a [b] ha
  constructor
  · rw [hab, hb1, hnil]
    simp
  · rw [ha1, hnil]
    simp

/-- Witness for processQueue_interpost_delay at two concrete always
succeeding jobs. -/
theorem processQueue_interpost_delay_witness :
    processQueue { postDelay := 20000, maxRetries := 2 } (fun _ _ => true)
        [{ id := 1, retries := 0 }, { id := 2, retries := 0 }]
      = [QEvent.process 1 0, QEvent.postWait 20000, QEvent.process 2 0]
    ∧ processQueue { postDelay := 20000, maxRetries := 2 } (fun _ _ => true)
        [{ id := 1, retries := 0 }] = [QEvent.process 1 0] :=
  processQueue_interpost_delay { postDelay := 20000, maxRetries := 2 }
    (fun _ _ => true) { id := 1, retries := 0 } { id := 2, retries := 0 } rfl rfl
